import Mathlib

/-!
Verification development for the talktor real-time medical-conversation server.

Shallow embedding of the core components referenced by the specification:

* `server/services/audio/streaming_audio_service.py`
  (`AudioBuffer`, `StreamingState`, `StreamingAudioService.process_audio_chunk`);
* `server/services/medical_intelligence/core/extraction.py`
  (`MedicationExtractionService`: candidate generation, deduplication, validation);
* `server/services/medical_intelligence/core/confidence.py` (`ConfidenceScorer`);
* `server/services/medical_intelligence/specialties/__init__.py`
  (`SpecialtyRegistry.detect_specialty` and the specialty-selection step of
  `MedicalIntelligenceService.process_medical_text`);
* `server/services/translation/translator.py`
  (`TranslationService.translate_with_medical_context`);
* `server/services/conversation/realtime_manager.py`
  (`RealTimeConversationManager._process_conversation_turn` and the broadcast
  helpers around it).

External collaborators (the Google translator call, the medication catalog
lookup, `process_medical_text` as seen from the conversation orchestrator) are
parameters of the embedding; everything else is translated from the source.
Machine text is modelled over `List Char` / `String` (ASCII-faithful: Python's
`\w` and `str.lower` agree with `Char.isAlphanum`/`Char.toLower` on the ASCII
inputs considered); Python floats on the audio/confidence paths are modelled
as exact rationals.
-/

/-! ## Python-style helpers -/

/-- Python `int(q)` on a real value: truncation toward zero. -/
def pyInt (q : ℚ) : ℤ := if 0 ≤ q then ⌊q⌋ else ⌈q⌉

/-- Python slice `l[a:b]` for non-negative clamped bounds. -/
def pySlice {α : Type} (l : List α) (a b : ℕ) : List α := (l.take b).drop a

/-- Python `needle in hay` on lists (contiguous-sublist test). -/
def containsSub {α : Type} [BEq α] : List α → List α → Bool
  | needle, [] => needle.isEmpty
  | needle, a :: hs => needle.isPrefixOf (a :: hs) || containsSub needle hs

/-- Python `needle in hay` on strings. -/
def pyInStr (needle hay : String) : Bool := containsSub needle.data hay.data

/-- Python `str.lower()` (ASCII case folding). -/
def pyLower (s : String) : String := String.mk (s.data.map Char.toLower)

/-- A word character in the sense of the regexes used by the extractor
(`\w`, ASCII reading): alphanumeric or underscore. -/
def isWordChar (c : Char) : Bool := c.isAlphanum || c = '_'

/-- Accumulator pass splitting a character list into maximal `isWordChar` runs
with their start indices.  The accumulator holds the start index and the
reversed characters of the run in progress. -/
def runsAux : List Char → ℕ → Option (ℕ × List Char) → List (ℕ × List Char)
  | [], _, none => []
  | [], _, some (st, acc) => [(st, acc.reverse)]
  | c :: cs, i, none =>
      if isWordChar c then runsAux cs (i + 1) (some (i, [c]))
      else runsAux cs (i + 1) none
  | c :: cs, i, some (st, acc) =>
      if isWordChar c then runsAux cs (i + 1) (some (st, c :: acc))
      else (st, acc.reverse) :: runsAux cs (i + 1) none

/-- Maximal word-character runs of a character list, with start indices.
A regex `\b\w...\b` match is exactly such a run (boundaries force maximality). -/
def word_runs (s : List Char) : List (ℕ × List Char) := runsAux s 0 none

/-- Accumulator pass counting maximal non-whitespace runs (the flag records
whether the previous character was part of a field). -/
def splitCountAux : List Char → Bool → ℕ
  | [], _ => 0
  | c :: cs, inWord =>
      if c.isWhitespace then splitCountAux cs false
      else (if inWord then 0 else 1) + splitCountAux cs true

/-- Python `len(s.split())`: number of whitespace-separated fields. -/
def split_count (s : List Char) : ℕ := splitCountAux s false

/-- Python `l[-n:]`. -/
def pyTakeLast {α : Type} (n : ℕ) (l : List α) : List α := l.drop (l.length - n)

/-! ## AudioBuffer (streaming_audio_service.py)

Chunks are modelled by their byte length; a chunk of `len` bytes contributes
`len // 2` sixteen-bit samples, exactly as `add_chunk` computes. -/

/-- `AudioBuffer.__init__` state: `max_duration` (seconds), `sample_rate`,
the chunk list (byte lengths) and the running `total_samples` counter. -/
structure AudioBuffer where
  max_duration : ℚ
  sample_rate : ℕ
  chunks : List ℕ
  total_samples : ℤ
deriving DecidableEq

/-- The eviction loop of `add_chunk`:
`while self.total_samples > max_samples and self.chunks: pop(0)`. -/
def evict_old_chunks (max_samples : ℤ) : List ℕ → ℤ → List ℕ × ℤ
  | [], total => ([], total)
  | c :: cs, total =>
      if max_samples < total then evict_old_chunks max_samples cs (total - (c / 2 : ℕ))
      else (c :: cs, total)

/-- `AudioBuffer.add_chunk`: append the chunk, add its `len // 2` samples,
then evict oldest chunks while the total exceeds
`int(max_duration * sample_rate)`. -/
def AudioBuffer.add_chunk (b : AudioBuffer) (chunk_len : ℕ) : AudioBuffer :=
  let max_samples := pyInt (b.max_duration * (b.sample_rate : ℚ))
  let p := evict_old_chunks max_samples (b.chunks ++ [chunk_len])
      (b.total_samples + (chunk_len / 2 : ℕ))
  { b with chunks := p.1, total_samples := p.2 }

/-- `AudioBuffer.get_duration`: `total_samples / sample_rate` (true division). -/
def AudioBuffer.get_duration (b : AudioBuffer) : ℚ :=
  (b.total_samples : ℚ) / (b.sample_rate : ℚ)

/-- `AudioBuffer.clear`. -/
def AudioBuffer.clear (b : AudioBuffer) : AudioBuffer :=
  { b with chunks := [], total_samples := 0 }

/-- Consistency of the running counter with the chunk list (holds for every
buffer the service ever constructs). -/
def AudioBuffer.wf (b : AudioBuffer) : Prop :=
  b.total_samples = (b.chunks.map (fun c => ((c / 2 : ℕ) : ℤ))).sum

/-! ## StreamingAudioService voice-activity state machine -/

/-- `StreamingState` (the fields the control flow reads). -/
structure StreamingState where
  is_recording : Bool
  is_processing : Bool
  last_speech_time : Option ℚ
deriving DecidableEq

/-- Per-session audio state: buffer plus recording state. -/
structure SessionAudio where
  buffer : AudioBuffer
  state : StreamingState
deriving DecidableEq

/-- `self.vad_threshold = 0.01`. -/
def vad_threshold : ℚ := 0.01

/-- `self.silence_duration = 1.5`. -/
def silence_duration : ℚ := 1.5

/-- `self.min_audio_length = 0.5`. -/
def min_audio_length : ℚ := 0.5

/-- `self.max_audio_length = 30.0`. -/
def max_audio_length : ℚ := 30.0

/-- `self.sample_rate = 16000`. -/
def service_sample_rate : ℕ := 16000

/-- The session state installed by `start_streaming_session`. -/
def initial_session_audio : SessionAudio :=
  { buffer := { max_duration := max_audio_length, sample_rate := service_sample_rate,
                chunks := [], total_samples := 0 },
    state := { is_recording := false, is_processing := false, last_speech_time := none } }

/-- One decoded input to `process_audio_chunk`: the normalized RMS level the
service computes for the chunk (`_calculate_audio_level`), the chunk's byte
length, and the wall-clock time of arrival. -/
structure ChunkInput where
  level : ℚ
  chunk_len : ℕ
  time : ℚ
deriving DecidableEq

/-- `StreamingAudioService.process_audio_chunk` after base64 decoding and level
computation.  `has_speech = level > vad_threshold`; on speech the chunk is
buffered and the recording state refreshed; on silence while recording (and a
truthy `last_speech_time`, hence the `t ≠ 0` test) the segment is finalized
once `silence_duration` has elapsed — emitted when at least
`min_audio_length` long, discarded otherwise.  The emitted value stands for
the buffer handed to `_process_audio_buffer`. -/
def process_audio_chunk (s : SessionAudio) (inp : ChunkInput) :
    SessionAudio × Option (List ℕ) :=
  if vad_threshold < inp.level then
    ({ buffer := s.buffer.add_chunk inp.chunk_len,
       state := { s.state with is_recording := true, last_speech_time := some inp.time } },
     none)
  else
    match s.state.is_recording, s.state.last_speech_time with
    | true, some t =>
        if t ≠ 0 then
          if silence_duration ≤ inp.time - t then
            if min_audio_length ≤ s.buffer.get_duration then
              ({ buffer := s.buffer.clear,
                 state := { s.state with is_recording := false, last_speech_time := none } },
               some s.buffer.chunks)
            else
              ({ buffer := s.buffer.clear,
                 state := { s.state with is_recording := false, last_speech_time := none } },
               none)
          else (s, none)
        else (s, none)
    | _, _ => (s, none)

/-- Feeding a sequence of chunks through `process_audio_chunk`, collecting the
per-chunk results. -/
def run_audio_chunks : SessionAudio → List ChunkInput → List (Option (List ℕ))
  | _, [] => []
  | s, i :: is =>
      (process_audio_chunk s i).2 :: run_audio_chunks (process_audio_chunk s i).1 is

/-! ## MedicationExtractionService (core/extraction.py) -/

/-- A medication candidate.  Of the per-strategy `confidence_modifiers` only
the two read by the confidence scorer are kept (`pattern_matched`,
`pattern_confidence`); the others (`word_length`, `position_ratio`,
`compound_length`, `first_word_length`, `suffix_type`) are written by the
generators and never read downstream. -/
structure Candidate where
  term : String
  strategy : String
  context : String
  position : ℕ
  pattern_matched : Bool
  pattern_confidence : ℚ
deriving DecidableEq

/-- `words = re.findall(r'\b\w{3,}\b', text.lower())`: the maximal
word-character runs of the lowered text that are at least 3 characters long. -/
def findall_words (text : String) : List String :=
  ((word_runs (pyLower text).data).filter (fun r => 3 ≤ r.2.length)).map
    (fun r => String.mk r.2)

/-- `_extract_single_words`: every word of length ≥ 4, with a ±2-word context
window and its word index as position. -/
def extract_single_words (words : List String) : List Candidate :=
  words.enum.filterMap (fun p =>
    if 4 ≤ p.2.length then
      some { term := p.2, strategy := "single_word",
             context := String.intercalate " " (pySlice words (p.1 - 2) (p.1 + 3)),
             position := p.1, pattern_matched := false, pattern_confidence := 0 }
    else none)

/-- `_extract_bigrams`: every adjacent word pair, with a wider context window. -/
def extract_bigrams (words : List String) : List Candidate :=
  (List.range (words.length - 1)).map (fun i =>
    { term := words.getD i "" ++ " " ++ words.getD (i + 1) "",
      strategy := "bigram",
      context := String.intercalate " " (pySlice words (i - 1) (i + 4)),
      position := i, pattern_matched := false, pattern_confidence := 0 })

/-- The pharmaceutical suffix patterns of `_extract_by_patterns` with their
fixed confidence weights, in the source's dict order. -/
def medication_patterns : List (String × ℚ) :=
  [("mycin", 0.8), ("cillin", 0.85), ("prazole", 0.9), ("statin", 0.85),
   ("pril", 0.8), ("lol", 0.75), ("ide", 0.7), ("pine", 0.7)]

/-- Whether a maximal word run matches `\b\w+SUFFIX\b`: it ends with the
suffix and has at least one word character before it. -/
def suffix_matches (suffix run : List Char) : Bool :=
  decide (suffix.length < run.length) && (run.drop (run.length - suffix.length) == suffix)

/-- `_extract_by_patterns`: per pattern (in dict order), per `finditer` match
on the lowered text (i.e. per maximal word run matching the suffix, in text
order): term, a ±20-character context slice of the original text, and
`len(text[:match.start()].split())` as word position. -/
def extract_by_patterns (text : String) : List Candidate :=
  medication_patterns.flatMap (fun p =>
    (word_runs (pyLower text).data).filterMap (fun r =>
      if suffix_matches p.1.data r.2 then
        some { term := String.mk r.2,
               strategy := "pattern_match",
               context := String.mk (pySlice text.data (r.1 - 20) (r.1 + r.2.length + 20)),
               position := split_count (text.data.take r.1),
               pattern_matched := true,
               pattern_confidence := p.2 }
      else none))

/-- The deduplication key of `_deduplicate_candidates`:
`f"{candidate['term']}_{candidate['strategy']}"`. -/
def candidate_key (c : Candidate) : String := c.term ++ "_" ++ c.strategy

/-- The loop of `_deduplicate_candidates`, threading the `seen_terms` set. -/
def dedupAux : List Candidate → List String → List Candidate
  | [], _ => []
  | c :: cs, seen =>
      if candidate_key c ∈ seen then dedupAux cs seen
      else c :: dedupAux cs (candidate_key c :: seen)

/-- `_deduplicate_candidates`: keep the first candidate per (term, strategy)
key, preserving order. -/
def deduplicate_candidates (candidates : List Candidate) : List Candidate :=
  dedupAux candidates []

/-- `_identify_candidates`: union of the three strategies, deduplicated. -/
def identify_candidates (text : String) : List Candidate :=
  deduplicate_candidates
    (extract_single_words (findall_words text) ++ extract_bigrams (findall_words text)
      ++ extract_by_patterns text)

/-! ## ConfidenceScorer (core/confidence.py) -/

/-- A catalog record as consumed by the scorer.  The external lookup never
returns null; absence of a field is the falsy value (`""` / `[]`), matching
the truthiness tests `api_result.get(...)`. -/
structure ApiResult where
  canonical_name : String
  indications : List String
  contraindications : List String
  rxcui : String
deriving DecidableEq

/-- `self.medication_indicators`. -/
def medication_indicators : List String :=
  ["taking", "prescribed", "medication", "medicine", "drug", "pill",
   "tablet", "dosage", "mg", "milligram", "daily", "twice", "morning",
   "doctor", "physician", "pharmacy", "prescription"]

/-- `_calculate_api_confidence`: 0.4 for a truthy canonical name, plus 0.1
bonuses for indications, contraindications and an RxNorm id. -/
def calculate_api_confidence (r : ApiResult) : ℚ :=
  if r.canonical_name ≠ "" then
    0.4 + (if r.indications ≠ [] then 0.1 else 0)
        + (if r.contraindications ≠ [] then 0.1 else 0)
        + (if r.rxcui ≠ "" then 0.1 else 0)
  else 0

/-- `_calculate_context_confidence`: 0.05 per indicator occurring in the
lowered context, capped at 0.2. -/
def calculate_context_confidence (c : Candidate) : ℚ :=
  min (((medication_indicators.countP
          (fun ind => pyInStr ind (pyLower c.context))) : ℚ) * 0.05) 0.2

/-- `self.strategy_weights` with `dict.get(strategy, 0)`. -/
def strategy_weight (strategy : String) : ℚ :=
  if strategy == "pattern_match" then 0.15
  else if strategy == "single_word" then 0.05
  else if strategy == "bigram" then 0
  else 0

/-- `_calculate_strategy_confidence`. -/
def calculate_strategy_confidence (c : Candidate) : ℚ := strategy_weight c.strategy

/-- `_calculate_position_confidence`: 0.05 for a mid-sentence position ratio,
0.05 for a 4–15 character term. -/
def calculate_position_confidence (c : Candidate) (original_text : String) : ℚ :=
  let pr : ℚ := (c.position : ℚ) / ((max (split_count original_text.data) 1 : ℕ) : ℚ)
  (if 0.2 < pr ∧ pr < 0.8 then 0.05 else 0)
    + (if 4 ≤ c.term.length ∧ c.term.length ≤ 15 then 0.05 else 0)

/-- `_calculate_pattern_confidence`: the pattern weight scaled by 0.15 when the
suffix pattern fired. -/
def calculate_pattern_confidence (c : Candidate) : ℚ :=
  if c.pattern_matched then c.pattern_confidence * 0.15 else 0

/-- `ConfidenceScorer.calculate_confidence`: sum of the five signals, capped
at 1.0. -/
def calculate_confidence (c : Candidate) (api_result : ApiResult)
    (original_text : String) : ℚ :=
  min (calculate_api_confidence api_result + calculate_context_confidence c
        + calculate_strategy_confidence c + calculate_position_confidence c original_text
        + calculate_pattern_confidence c) 1

/-! ## Candidate validation (core/extraction.py) -/

/-- A validated medication entry (`_validate_candidates` output; the
timestamp field is dropped). -/
structure Validated where
  medication : ApiResult
  extraction_confidence : ℚ
  extraction_strategy : String
  context : String
  position : ℕ
  original_term : String
deriving DecidableEq

/-- `self.confidence_threshold = 0.3`. -/
def confidence_threshold : ℚ := 0.3

/-- `_validate_candidates`, with the external catalog lookup (for the fixed
medical context of the call) as a parameter: per candidate, look up, score,
and keep when strictly above the threshold. -/
def validate_candidates (api : String → ApiResult) (candidates : List Candidate)
    (original_text : String) : List Validated :=
  candidates.filterMap (fun c =>
    if confidence_threshold < calculate_confidence c (api c.term) original_text then
      some { medication := api c.term,
             extraction_confidence := calculate_confidence c (api c.term) original_text,
             extraction_strategy := c.strategy, context := c.context,
             position := c.position, original_term := c.term }
    else none)

/-- The medications list of `extract_medications` (steps 1–2; metadata and
learning storage do not affect it). -/
def extract_medications (api : String → ApiResult) (text : String) : List Validated :=
  validate_candidates api (identify_candidates text) text

/-- The (term, strategy) pair of a validated entry. -/
def validated_pair (v : Validated) : String × String := (v.original_term, v.extraction_strategy)

/-- The deduplication key of a validated entry, as `candidate_key` computes it. -/
def validated_key (v : Validated) : String := v.original_term ++ "_" ++ v.extraction_strategy

/-! ## SpecialtyRegistry (specialties/__init__.py)

The registry is a list of registered (specialty name, keyword list) entries in
registration order (dict insertion order).  The keywords the registration code
intends to install for the one shipped specialty are reproduced below; note
that at runtime `_register_available_specialties` in fact fails (it evaluates
`len(OBGYNSpecialty.keywords)` on a class whose `keywords` is an instance
property), so the live registry is empty — the registry is therefore kept as a
parameter. -/

/-- A patient profile as passed by callers of `detect_specialty`
(e.g. `{"pregnancy_status": True}` in `main.py`). -/
structure PatientProfile where
  pregnancy_status : Bool
  conditions : List String
deriving DecidableEq

/-- Whether a registered entry's keyword list matches the lowered text
(`matched_keywords` non-empty in `detect_specialty`). -/
def entry_matches (text : String) (entry : String × List String) : Bool :=
  entry.2.any (fun kw => pyInStr kw text)

/-- `SpecialtyRegistry.detect_specialty`: first registered specialty whose
keyword list matches the lowered text wins; otherwise `"general"`.  The
`patient_profile` argument is accepted and never read — exactly as in the
source. -/
def detect_specialty (registry : List (String × List String)) (text : String)
    (patient_profile : Option PatientProfile) : String :=
  match registry.find? (fun entry => entry_matches (pyLower text) entry) with
  | some entry => entry.1
  | none => "general"

/-- The specialty-selection step of
`MedicalIntelligenceService.process_medical_text` (lines 54–59): auto-detect
only when the argument is `"general"`, and keep the detection result only when
it differs from `"general"`. -/
def selected_specialty (registry : List (String × List String)) (text : String)
    (specialty : String) (patient_profile : Option PatientProfile) : String :=
  if specialty == "general" then
    if detect_specialty registry text patient_profile ≠ "general" then
      detect_specialty registry text patient_profile
    else specialty
  else specialty

/-- The English keywords of `OBGYNSpecialty.keywords`
(specialties/obgyn/integration.py). -/
def obgyn_keywords : List String :=
  ["pregnant", "pregnancy", "prenatal", "postpartum", "breastfeeding",
   "birth control", "contraception", "period", "menstrual", "cycle",
   "pcos", "endometriosis", "fertility", "ovulation", "gynecologist",
   "obgyn", "ob/gyn", "prenatal vitamins", "folic acid", "gestational",
   "trimester", "labor", "delivery", "cervical", "uterine", "ovarian"]

/-- The Spanish keywords `_register_available_specialties` intends to append. -/
def obgyn_spanish_keywords : List String :=
  ["embarazada", "embarazo", "tomando", "vitaminas prenatales",
   "ácido fólico", "anticonceptivos", "menstruación", "ginecólogo",
   "primer trimestre", "segundo trimestre", "tercer trimestre",
   "amamantando", "lactancia", "posparto", "medicamento", "medicina",
   "pastillas", "vitaminas", "tratamiento", "dosis", "síntomas"]

/-- The registry as the registration code intends to populate it. -/
def obgyn_registry : List (String × List String) :=
  [("obgyn", obgyn_keywords ++ obgyn_spanish_keywords)]

/-! ## TranslationService (translation/translator.py)

The `GoogleTranslator.translate` collaborator is a parameter that either
returns a translation or raises. -/

/-- The medication-context indicator list of `_fix_spanish_medical_context`. -/
def spanish_medication_indicators : List String :=
  ["medicamento", "medicina", "pastillas", "vitaminas",
   "mg", "gramos", "dosis", "píldora", "tableta"]

/-- `_fix_spanish_medical_context`: when "tomando" occurs in a medication
context, annotate it (both capitalizations) for better translation. -/
def fix_spanish_medical_context (text : String) : String :=
  if pyInStr "tomando" (pyLower text) then
    if spanish_medication_indicators.any (fun ind => pyInStr ind (pyLower text)) then
      (text.replace "tomando" "tomando (taking medication)").replace
        "Tomando" "Tomando (taking medication)"
    else text
  else text

/-- The pre-processing step of `translate_with_medical_context`: the Spanish
fix is applied when the source language is "es" or "auto" and the text
contains "tomando". -/
def preprocessed_text (text source_lang : String) : String :=
  if (source_lang == "es" || source_lang == "auto")
      && pyInStr "tomando" (pyLower text) then
    fix_spanish_medical_context text
  else text

/-- `_enhance_with_medical_context`: post-process es→en translations
("drinking"→"taking"; "embarrassed"→"pregnant" when the raw translation
mentions "embarazada").  The `medications` argument is accepted and never
read, as in the source. -/
def enhance_with_medical_context (translation : String) (medications : List Validated)
    (target_lang source_lang : String) : String :=
  if source_lang == "es" && target_lang == "en" then
    if pyInStr "embarazada" (pyLower translation) then
      ((((translation.replace "drinking" "taking").replace "Drinking" "Taking").replace
          "embarrassed" "pregnant").replace "Embarrassed" "Pregnant")
    else
      (translation.replace "drinking" "taking").replace "Drinking" "Taking"
  else translation

/-- The dict returned by `translate_with_medical_context`. -/
structure TranslationOutcome where
  standard_translation : String
  enhanced_translation : String
  medical_context_applied : Bool
deriving DecidableEq

/-- `TranslationService.translate_with_medical_context`: pre-process, call the
translator, enhance; any exception is caught and replaced by the
`[TRANSLATION FAILED]` echo of the (pre-processed) text with
`medical_context_applied: False`. -/
def translate_with_medical_context (gtranslate : String → Except Unit String)
    (text source_lang target_lang : String) (medications : List Validated) :
    TranslationOutcome :=
  match gtranslate (preprocessed_text text source_lang) with
  | .ok std =>
      { standard_translation := std,
        enhanced_translation :=
          enhance_with_medical_context std medications target_lang source_lang,
        medical_context_applied := true }
  | .error _ =>
      { standard_translation := "[TRANSLATION FAILED] " ++ preprocessed_text text source_lang,
        enhanced_translation := "[TRANSLATION FAILED] " ++ preprocessed_text text source_lang,
        medical_context_applied := false }

/-! ## RealTimeConversationManager (conversation/realtime_manager.py)

`process_medical_text` is the orchestrator's collaborator: it either returns a
result dict or raises.  Of the result dict the turn reads
`.get("medications", [])` and `_check_safety_alerts` reads
`.get("medical_notes", [])`; both defaults are folded into the structure. -/

/-- An entry of a result's `medical_notes` list. -/
structure MedicalNote where
  type : String
  message : String
  importance : String
deriving DecidableEq

/-- The medical-intelligence result as read by the conversation turn. -/
structure MedicalResult where
  medications : List Validated
  medical_notes : List MedicalNote
deriving DecidableEq

/-- Speaker roles (`SpeakerRole`). -/
inductive SpeakerRole where
  | doctor
  | patient
  | system
deriving DecidableEq

/-- Message types of `MessageType` that reach the session log or broadcasts. -/
inductive PyMessageType where
  | transcription
  | translation
  | medical_alert
  | conversation_summary
  | tts_audio
  | system_status
deriving DecidableEq

/-- A logged `ConversationMessage`, reduced to the fields later code reads:
its type and `content.get("text", "")` (only transcription messages carry a
`"text"` content key; TTS messages are broadcast but never logged). -/
structure ConversationMessage where
  message_type : PyMessageType
  text : String
deriving DecidableEq

/-- `ConversationSession`, reduced to the fields the turn pipeline reads. -/
structure ConversationSession where
  doctor_language : String
  patient_language : String
  messages : List ConversationMessage
  safety_alerts : List MedicalNote
deriving DecidableEq

/-- A JSON-ish value for modelling message `content` dicts. -/
inductive PyVal where
  | s (v : String)
  | q (v : ℚ)
  | b (v : Bool)
  | meds (v : List Validated)
deriving DecidableEq

/-- A broadcast (`_broadcast_to_session`) performed during a turn, in program
order.  Translation messages keep their full content dict so its keys can be
inspected. -/
inductive BroadcastEvent where
  | transcription (text : String)
  | medical_alert (note : MedicalNote)
  | translation (content : List (String × PyVal))
  | tts_audio (text language : String)
  | conversation_summary
deriving DecidableEq

/-- The message-type tag of a broadcast event. -/
def BroadcastEvent.kind : BroadcastEvent → PyMessageType
  | .transcription _ => .transcription
  | .medical_alert _ => .medical_alert
  | .translation _ => .translation
  | .tts_audio _ _ => .tts_audio
  | .conversation_summary => .conversation_summary

/-- The urgent notes `_check_safety_alerts` extracts:
`note.get("importance") == "urgent"`. -/
def urgent_notes (m : MedicalResult) : List MedicalNote :=
  m.medical_notes.filter (fun n => n.importance == "urgent")

/-- The alert broadcasts of `_check_safety_alerts`, one per urgent note, in
order. -/
def check_safety_alerts_events (m : MedicalResult) : List BroadcastEvent :=
  (urgent_notes m).map BroadcastEvent.medical_alert

/-- The session mutation of `_check_safety_alerts`: each urgent note appends
an alert message to the log and the note to `safety_alerts`. -/
def check_safety_alerts_session (s : ConversationSession) (m : MedicalResult) :
    ConversationSession :=
  (urgent_notes m).foldl (fun acc n =>
    { acc with
      messages := acc.messages ++ [{ message_type := .medical_alert, text := "" }],
      safety_alerts := acc.safety_alerts ++ [n] }) s

/-- The in-repo placeholder `TTSService.synthesize_speech`: always returns a
fixed non-empty base64 payload with format "wav". -/
def tts_synthesize_speech (text language : String) : String × String :=
  ("dGVzdF9hdWRpb19kYXRh", "wav")

/-- `_generate_and_send_tts`: synthesize, and broadcast a TTS message whenever
the returned `audio_data` is truthy. -/
def generate_and_send_tts_events (translated_text target_language : String) :
    List BroadcastEvent :=
  if (tts_synthesize_speech translated_text target_language).1 ≠ "" then
    [BroadcastEvent.tts_audio translated_text target_language]
  else []

/-- `self.config["auto_tts_enabled"]`. -/
def config_auto_tts_enabled : Bool := true

/-- The `conversation_text` of `_update_conversation_summary`: the joined
`"text"` contents of the transcription messages among the last 10 logged
messages. -/
def conversation_text_of (s : ConversationSession) : String :=
  String.intercalate " "
    (((pyTakeLast 10 s.messages).filter
        (fun msg => msg.message_type == .transcription)).map (fun msg => msg.text))

/-- `_update_conversation_summary`: when the recent conversation text is
truthy, re-run medical processing and broadcast a summary; its own
try/except swallows a failing medical call (no broadcast, turn unaffected). -/
def update_conversation_summary_events
    (process_medical_text : String → Except Unit MedicalResult)
    (s : ConversationSession) : List BroadcastEvent :=
  if conversation_text_of s ≠ "" then
    match process_medical_text (conversation_text_of s) with
    | .ok _ => [BroadcastEvent.conversation_summary]
    | .error _ => []
  else []

/-- Target-language resolution of the turn: the other participant's language. -/
def target_language (s : ConversationSession) (speaker : SpeakerRole) : String :=
  if speaker == .doctor then s.patient_language else s.doctor_language

/-- The `content` dict of the turn's translation message.  Its keys are
exactly the six below; `confidence` is `translation_result.get("confidence",
0.95)`, which is always the default since `translate_with_medical_context`
returns no such key. -/
def translation_content (text translated source_lang target_lang : String)
    (medications : List Validated) : List (String × PyVal) :=
  [("original_text", PyVal.s text),
   ("translated_text", PyVal.s translated),
   ("source_language", PyVal.s source_lang),
   ("target_language", PyVal.s target_lang),
   ("medical_context", PyVal.meds medications),
   ("confidence", PyVal.q 0.95)]

/-- `_process_conversation_turn`: medical processing, safety alerts,
translation, translation broadcast, TTS, summary — all wrapped in one
try/except, so a raising `process_medical_text` aborts the turn with no
further broadcasts (`(s, [])`).  Returns the updated session and the ordered
broadcast list. -/
def process_conversation_turn
    (process_medical_text : String → Except Unit MedicalResult)
    (gtranslate : String → Except Unit String)
    (s : ConversationSession) (speaker : SpeakerRole) (text source_lang : String) :
    ConversationSession × List BroadcastEvent :=
  match process_medical_text text with
  | .error _ => (s, [])
  | .ok m =>
      let tr := translate_with_medical_context gtranslate text source_lang
          (target_language s speaker) m.medications
      let s2 := { check_safety_alerts_session s m with
                  messages := (check_safety_alerts_session s m).messages
                      ++ [{ message_type := .translation, text := "" }] }
      (s2,
        check_safety_alerts_events m
          ++ [BroadcastEvent.translation
                (translation_content text tr.enhanced_translation source_lang
                  (target_language s speaker) m.medications)]
          ++ (if config_auto_tts_enabled then
                generate_and_send_tts_events tr.enhanced_translation
                  (target_language s speaker)
              else [])
          ++ update_conversation_summary_events process_medical_text s2)

/-- `_handle_transcription` after decoding (shared shape with
`_handle_audio_chunk`): for truthy text, log and broadcast the transcription,
then run the conversation turn. -/
def handle_transcription
    (process_medical_text : String → Except Unit MedicalResult)
    (gtranslate : String → Except Unit String)
    (s : ConversationSession) (speaker : SpeakerRole) (text language : String) :
    ConversationSession × List BroadcastEvent :=
  if text ≠ "" then
    ((process_conversation_turn process_medical_text gtranslate
        { s with messages := s.messages ++ [{ message_type := .transcription, text := text }] }
        speaker text language).1,
     BroadcastEvent.transcription text ::
       (process_conversation_turn process_medical_text gtranslate
          { s with messages := s.messages ++ [{ message_type := .transcription, text := text }] }
          speaker text language).2)
  else (s, [])

/-- `_broadcast_to_session` expanded over a turn: each broadcast sends the
message to every live connection of the session, in connection order, before
the next broadcast is issued. -/
def sendLog (conns : List String) (events : List BroadcastEvent) :
    List (String × BroadcastEvent) :=
  events.flatMap (fun e => conns.map (fun c => (c, e)))

/-- The sequence of messages a given connection receives from a send log. -/
def receives (log : List (String × BroadcastEvent)) (c : String) :
    List BroadcastEvent :=
  (log.filter (fun p => p.1 == c)).map Prod.snd

/-- The catalog record shape `identify_medication` falls back to when the
external queries add nothing (and its exception path): `canonical_name`
echoes the queried term, every other field empty/unknown. -/
def api_basic : String → ApiResult := fun term =>
  { canonical_name := term, indications := [], contraindications := [],
    rxcui := "" }

/-- The content dicts of the translation messages among a broadcast list. -/
def translation_contents (events : List BroadcastEvent) : List (List (String × PyVal)) :=
  events.filterMap (fun e =>
    match e with
    | .translation content => some content
    | _ => none)

/-- The (text, language) payloads of the TTS messages among a broadcast list. -/
def tts_payloads (events : List BroadcastEvent) : List (String × String) :=
  events.filterMap (fun e =>
    match e with
    | .tts_audio text language => some (text, language)
    | _ => none)

/-! # Theorems -/

/-! ## AudioBuffer invariants (C4) -/

/-- The eviction loop keeps the sample counter consistent with the chunk list. -/
theorem evict_old_chunks_wf (maxS : ℤ) :
    ∀ (l : List ℕ) (t : ℤ), t = (l.map (fun c => ((c / 2 : ℕ) : ℤ))).sum →
      (evict_old_chunks maxS l t).2
        = ((evict_old_chunks maxS l t).1.map (fun c => ((c / 2 : ℕ) : ℤ))).sum := by
  intro l
  induction l with
  | nil =>
      intro t ht
      simpa [evict_old_chunks] using ht
  | cons c cs ih =>
      intro t ht
      by_cases h : maxS < t
      · have ht' : t - ((c / 2 : ℕ) : ℤ)
            = (cs.map (fun c => ((c / 2 : ℕ) : ℤ))).sum := by
          simp only [List.map_cons, List.sum_cons] at ht
          omega
        simpa [evict_old_chunks, if_pos h] using ih (t - ((c / 2 : ℕ) : ℤ)) ht'
      · simpa [evict_old_chunks, if_neg h] using ht

/-- For a consistent counter and a non-negative bound, the eviction loop ends
at or below the bound. -/
theorem evict_old_chunks_le (maxS : ℤ) (h0 : 0 ≤ maxS) :
    ∀ (l : List ℕ) (t : ℤ), t = (l.map (fun c => ((c / 2 : ℕ) : ℤ))).sum →
      (evict_old_chunks maxS l t).2 ≤ maxS := by
  intro l
  induction l with
  | nil =>
      intro t ht
      simp only [List.map_nil, List.sum_nil] at ht
      simpa [evict_old_chunks, ht] using h0
  | cons c cs ih =>
      intro t ht
      by_cases h : maxS < t
      · have ht' : t - ((c / 2 : ℕ) : ℤ)
            = (cs.map (fun c => ((c / 2 : ℕ) : ℤ))).sum := by
          simp only [List.map_cons, List.sum_cons] at ht
          omega
        simpa [evict_old_chunks, if_pos h] using ih (t - ((c / 2 : ℕ) : ℤ)) ht'
      · simpa [evict_old_chunks, if_neg h] using not_lt.mp h

/-- The eviction loop only drops chunks from the front. -/
theorem evict_old_chunks_drops_oldest (maxS : ℤ) :
    ∀ (l : List ℕ) (t : ℤ), ∃ dropped, l = dropped ++ (evict_old_chunks maxS l t).1 := by
  intro l
  induction l with
  | nil => intro t; exact ⟨[], by simp [evict_old_chunks]⟩
  | cons c cs ih =>
      intro t
      by_cases h : maxS < t
      · obtain ⟨dropped, hd⟩ := ih (t - ((c / 2 : ℕ) : ℤ))
        refine ⟨c :: dropped, ?_⟩
        simpa [evict_old_chunks, if_pos h] using hd
      · exact ⟨[], by simp [evict_old_chunks, if_neg h]⟩

/-- C4: for every session audio buffer, after every `add_chunk` call the
buffered duration (`total_samples / sample_rate`) is at most `max_duration`,
the counter stays consistent, and the surviving chunks are a tail of the
appended chunk list — the oldest chunks are the ones evicted. -/
theorem add_chunk_duration_le_max (b : AudioBuffer) (chunk_len : ℕ)
    (hwf : b.wf) (hmd : 0 ≤ b.max_duration) (hsr : 0 < b.sample_rate) :
    (b.add_chunk chunk_len).wf
      ∧ (b.add_chunk chunk_len).get_duration ≤ b.max_duration
      ∧ ∃ dropped, b.chunks ++ [chunk_len] = dropped ++ (b.add_chunk chunk_len).chunks := by
  have hq : (0 : ℚ) ≤ b.max_duration * (b.sample_rate : ℚ) :=
    mul_nonneg hmd (by positivity)
  have hmaxS : (0 : ℤ) ≤ pyInt (b.max_duration * (b.sample_rate : ℚ)) := by
    rw [pyInt, if_pos hq]
    exact Int.le_floor.mpr (by exact_mod_cast hq)
  have hsum : b.total_samples + ((chunk_len / 2 : ℕ) : ℤ)
      = ((b.chunks ++ [chunk_len]).map (fun c => ((c / 2 : ℕ) : ℤ))).sum := by
    rw [AudioBuffer.wf] at hwf
    simp [hwf]
  refine ⟨?_, ?_, ?_⟩
  · rw [AudioBuffer.wf]
    exact evict_old_chunks_wf _ _ _ hsum
  · have hle : (b.add_chunk chunk_len).total_samples
        ≤ pyInt (b.max_duration * (b.sample_rate : ℚ)) :=
      evict_old_chunks_le _ hmaxS _ _ hsum
    have hfloor : ((pyInt (b.max_duration * (b.sample_rate : ℚ)) : ℚ))
        ≤ b.max_duration * (b.sample_rate : ℚ) := by
      rw [pyInt, if_pos hq]
      exact Int.floor_le _
    have hsrq : (0 : ℚ) < (b.sample_rate : ℚ) := by exact_mod_cast hsr
    have : ((b.add_chunk chunk_len).total_samples : ℚ)
        ≤ b.max_duration * (b.sample_rate : ℚ) := by
      calc ((b.add_chunk chunk_len).total_samples : ℚ)
          ≤ ((pyInt (b.max_duration * (b.sample_rate : ℚ)) : ℚ)) := by exact_mod_cast hle
        _ ≤ b.max_duration * (b.sample_rate : ℚ) := hfloor
    have hrate : (b.add_chunk chunk_len).sample_rate = b.sample_rate := rfl
    rw [AudioBuffer.get_duration, hrate, div_le_iff₀ hsrq]
    exact this
  · exact evict_old_chunks_drops_oldest _ _ _

/-- C4 witness: a 30 s, 16 kHz buffer holding 29.95 s of audio receives a
4000-byte chunk; the bound still holds afterwards. -/
theorem add_chunk_duration_le_max_witness :
    ({ max_duration := 30, sample_rate := 16000, chunks := [958400],
       total_samples := 479200 } : AudioBuffer).wf
      ∧ (0 : ℚ) ≤ 30 ∧ (0 : ℕ) < 16000
      ∧ (({ max_duration := 30, sample_rate := 16000, chunks := [958400],
            total_samples := 479200 } : AudioBuffer).add_chunk 4000).get_duration ≤ 30 :=
  ⟨by rw [AudioBuffer.wf]; decide, by norm_num, by norm_num,
    (add_chunk_duration_le_max
      { max_duration := 30, sample_rate := 16000, chunks := [958400],
        total_samples := 479200 } 4000 (by rw [AudioBuffer.wf]; decide) (by norm_num)
      (by norm_num)).2.1⟩

/-! ## VAD state machine (C9, C10) -/

/-- A sub-threshold chunk arriving while idle changes nothing and emits
nothing. -/
theorem process_audio_chunk_idle_silent (s : SessionAudio) (inp : ChunkInput)
    (hrec : s.state.is_recording = false) (hlev : inp.level ≤ vad_threshold) :
    process_audio_chunk s inp = (s, none) := by
  obtain ⟨buffer, rec, proc, lst⟩ := s
  simp only at hrec
  subst hrec
  simp [process_audio_chunk, not_lt.mpr hlev]

/-- Running sub-threshold chunks from a non-recording state yields no result. -/
theorem run_audio_chunks_silent :
    ∀ (inputs : List ChunkInput) (s : SessionAudio),
      s.state.is_recording = false →
      (∀ i ∈ inputs, i.level ≤ vad_threshold) →
      ∀ r ∈ run_audio_chunks s inputs, r = none := by
  intro inputs
  induction inputs with
  | nil => intro s _ _ r hr; simp [run_audio_chunks] at hr
  | cons i is ih =>
      intro s hrec hlev r hr
      simp only [run_audio_chunks,
        process_audio_chunk_idle_silent s i hrec (hlev i (by simp)),
        List.mem_cons] at hr
      rcases hr with hr1 | hr1
      · exact hr1
      · exact ih s hrec (fun j hj => hlev j (by simp [hj])) r hr1

/-- C9: in a fresh streaming session, a chunk sequence in which every chunk's
normalized RMS level stays at or below the VAD threshold never produces a
transcription result. -/
theorem below_threshold_no_utterance (inputs : List ChunkInput)
    (hlev : ∀ i ∈ inputs, i.level ≤ vad_threshold) :
    ∀ r ∈ run_audio_chunks initial_session_audio inputs, r = none :=
  run_audio_chunks_silent inputs initial_session_audio rfl hlev

/-- C9 witness: three quiet chunks (levels 0, 0.01, 0.005) produce no result. -/
theorem below_threshold_no_utterance_witness :
    (∀ i ∈ [({ level := 0, chunk_len := 320, time := 0 } : ChunkInput),
            { level := 0.01, chunk_len := 320, time := 1 },
            { level := 0.005, chunk_len := 320, time := 2 }],
        i.level ≤ vad_threshold)
      ∧ ∀ r ∈ run_audio_chunks initial_session_audio
            [({ level := 0, chunk_len := 320, time := 0 } : ChunkInput),
             { level := 0.01, chunk_len := 320, time := 1 },
             { level := 0.005, chunk_len := 320, time := 2 }], r = none :=
  ⟨by with_unfolding_all decide,
    below_threshold_no_utterance _ (by with_unfolding_all decide)⟩

/-- C10: a sub-threshold chunk arriving while a recording is in progress,
before `silence_duration` has elapsed since the last speech, returns no
result and leaves the entire session state — buffer contents, `is_recording`,
`last_speech_time` — unchanged: silent gaps shorter than the timeout
contribute no audio to the eventual utterance. -/
theorem silent_gap_frame_effect (s : SessionAudio) (inp : ChunkInput) (t : ℚ)
    (hlev : inp.level ≤ vad_threshold)
    (hrec : s.state.is_recording = true)
    (hlast : s.state.last_speech_time = some t)
    (hgap : inp.time - t < silence_duration) :
    process_audio_chunk s inp = (s, none) := by
  obtain ⟨buffer, rec, proc, lst⟩ := s
  simp only at hrec hlast
  subst hrec
  subst hlast
  by_cases ht : t = 0
  · simp [process_audio_chunk, not_lt.mpr hlev, ht]
  · simp [process_audio_chunk, not_lt.mpr hlev, ht, not_le.mpr hgap]

/-- C10 witness: a 0.005-level chunk at time 1.0, with speech last heard at
time 0.2, leaves the concrete recording session untouched. -/
theorem silent_gap_frame_effect_witness :
    process_audio_chunk
        { buffer := { max_duration := 30, sample_rate := 16000,
                      chunks := [320], total_samples := 160 },
          state := { is_recording := true, is_processing := false,
                     last_speech_time := some 0.2 } }
        { level := 0.005, chunk_len := 320, time := 1 }
      = ({ buffer := { max_duration := 30, sample_rate := 16000,
                       chunks := [320], total_samples := 160 },
           state := { is_recording := true, is_processing := false,
                      last_speech_time := some 0.2 } }, none) :=
  silent_gap_frame_effect _ _ 0.2 (by norm_num [vad_threshold]) rfl rfl
    (by norm_num [silence_duration])

/-! ## Confidence scoring bounds (C8) -/

/-- Deduplication only keeps elements of its input. -/
theorem dedupAux_subset : ∀ (l : List Candidate) (seen : List String) (c : Candidate),
    c ∈ dedupAux l seen → c ∈ l := by
  intro l
  induction l with
  | nil => intro seen c hc; simp [dedupAux] at hc
  | cons a as ih =>
      intro seen c hc
      rw [dedupAux] at hc
      by_cases h : candidate_key a ∈ seen
      · exact List.mem_cons_of_mem _ (ih _ _ (by simpa [if_pos h] using hc))
      · rw [if_neg h, List.mem_cons] at hc
        rcases hc with h1 | h1
        · exact h1 ▸ List.mem_cons_self _ _
        · exact List.mem_cons_of_mem _ (ih _ _ h1)

/-- Every candidate the generator produces carries a non-negative pattern
weight: the word strategies write 0, the suffix strategy writes a weight from
the fixed pattern table. -/
theorem identify_candidates_pattern_nonneg (text : String) (c : Candidate)
    (hc : c ∈ identify_candidates text) : 0 ≤ c.pattern_confidence := by
  have hmem := dedupAux_subset _ _ _ hc
  rw [List.append_assoc, List.mem_append] at hmem
  rcases hmem with h1 | h1
  · obtain ⟨p, _, he⟩ := List.mem_filterMap.mp h1
    by_cases h4 : 4 ≤ p.2.length
    · rw [if_pos h4] at he
      cases he
      norm_num
    · rw [if_neg h4] at he
      cases he
  · rw [List.mem_append] at h1
    rcases h1 with h2 | h2
    · obtain ⟨i, _, he⟩ := List.mem_map.mp h2
      cases he
      norm_num
    · obtain ⟨p, hp, h3⟩ := List.mem_flatMap.mp h2
      obtain ⟨r, _, he⟩ := List.mem_filterMap.mp h3
      by_cases hs : suffix_matches p.1.data r.2 = true
      · rw [if_pos hs] at he
        cases he
        have hall : ∀ q ∈ medication_patterns, (0 : ℚ) ≤ q.2 := by
          with_unfolding_all decide
        exact hall p hp
      · rw [if_neg hs] at he
        cases he

/-- The catalog-richness signal is non-negative. -/
theorem calculate_api_confidence_nonneg (r : ApiResult) :
    0 ≤ calculate_api_confidence r := by
  rw [calculate_api_confidence]
  split_ifs <;> norm_num

/-- The context signal is non-negative. -/
theorem calculate_context_confidence_nonneg (c : Candidate) :
    0 ≤ calculate_context_confidence c := by
  rw [calculate_context_confidence]
  exact le_min (by positivity) (by norm_num)

/-- The strategy signal is non-negative. -/
theorem calculate_strategy_confidence_nonneg (c : Candidate) :
    0 ≤ calculate_strategy_confidence c := by
  rw [calculate_strategy_confidence, strategy_weight]
  split_ifs <;> norm_num

/-- The position/length signal is non-negative. -/
theorem calculate_position_confidence_nonneg (c : Candidate) (t : String) :
    0 ≤ calculate_position_confidence c t := by
  rw [calculate_position_confidence]
  have h1 : (0 : ℚ) ≤ (if 0.2 < (c.position : ℚ) / ((max (split_count t.data) 1 : ℕ) : ℚ)
      ∧ (c.position : ℚ) / ((max (split_count t.data) 1 : ℕ) : ℚ) < 0.8 then 0.05 else 0) := by
    split_ifs <;> norm_num
  have h2 : (0 : ℚ) ≤ (if 4 ≤ c.term.length ∧ c.term.length ≤ 15 then (0.05 : ℚ) else 0) := by
    split_ifs <;> norm_num
  exact add_nonneg h1 h2

/-- The pattern signal is non-negative for a non-negative pattern weight. -/
theorem calculate_pattern_confidence_nonneg (c : Candidate)
    (hpc : 0 ≤ c.pattern_confidence) : 0 ≤ calculate_pattern_confidence c := by
  rw [calculate_pattern_confidence]
  split_ifs
  · exact mul_nonneg hpc (by norm_num)
  · norm_num

/-- C8: for every candidate the extractor generates, every catalog record and
every source text, `calculate_confidence` returns a value within [0, 1] —
each signal is non-negative and the weighted sum is capped at 1.0. -/
theorem calculate_confidence_in_unit_interval (text : String) (c : Candidate)
    (api_result : ApiResult) (scoring_text : String)
    (hc : c ∈ identify_candidates text) :
    0 ≤ calculate_confidence c api_result scoring_text
      ∧ calculate_confidence c api_result scoring_text ≤ 1 := by
  constructor
  · rw [calculate_confidence]
    refine le_min ?_ (by norm_num)
    exact add_nonneg (add_nonneg (add_nonneg (add_nonneg
      (calculate_api_confidence_nonneg api_result)
      (calculate_context_confidence_nonneg c))
      (calculate_strategy_confidence_nonneg c))
      (calculate_position_confidence_nonneg c scoring_text))
      (calculate_pattern_confidence_nonneg c
        (identify_candidates_pattern_nonneg text c hc))
  · rw [calculate_confidence]
    exact min_le_right _ _

/-- C8 witness: the single-word candidate extracted from "I am taking
azithromycin", scored against a rich catalog record. -/
theorem calculate_confidence_in_unit_interval_witness :
    ({ term := "azithromycin", strategy := "single_word",
       context := "taking azithromycin", position := 1,
       pattern_matched := false, pattern_confidence := 0 } : Candidate)
        ∈ identify_candidates "I am taking azithromycin"
      ∧ 0 ≤ calculate_confidence
          { term := "azithromycin", strategy := "single_word",
            context := "taking azithromycin", position := 1,
            pattern_matched := false, pattern_confidence := 0 }
          { canonical_name := "azithromycin", indications := ["bacterial infections"],
            contraindications := [], rxcui := "18631" }
          "I am taking azithromycin"
      ∧ calculate_confidence
          { term := "azithromycin", strategy := "single_word",
            context := "taking azithromycin", position := 1,
            pattern_matched := false, pattern_confidence := 0 }
          { canonical_name := "azithromycin", indications := ["bacterial infections"],
            contraindications := [], rxcui := "18631" }
          "I am taking azithromycin" ≤ 1 :=
  ⟨by with_unfolding_all decide,
    (calculate_confidence_in_unit_interval "I am taking azithromycin" _ _ _
      (by with_unfolding_all decide)).1,
    (calculate_confidence_in_unit_interval "I am taking azithromycin" _ _ _
      (by with_unfolding_all decide)).2⟩

/-! ## Extraction output: deduplication and ordering (C7) -/

/-- The deduplication loop produces pairwise-distinct keys, none of which is
in the already-seen set. -/
theorem dedupAux_key_nodup : ∀ (l : List Candidate) (seen : List String),
    ((dedupAux l seen).map candidate_key).Nodup
      ∧ ∀ k ∈ (dedupAux l seen).map candidate_key, k ∉ seen := by
  intro l
  induction l with
  | nil => intro seen; simp [dedupAux]
  | cons a as ih =>
      intro seen
      rw [dedupAux]
      by_cases h : candidate_key a ∈ seen
      · rw [if_pos h]; exact ih seen
      · rw [if_neg h]
        obtain ⟨ihn, ihs⟩ := ih (candidate_key a :: seen)
        refine ⟨?_, ?_⟩
        · rw [List.map_cons, List.nodup_cons]
          exact ⟨fun hmem => (ihs _ hmem) (List.mem_cons_self _ _), ihn⟩
        · intro k hk
          rw [List.map_cons, List.mem_cons] at hk
          rcases hk with hk | hk
          · exact hk ▸ h
          · intro hks
            exact (ihs k hk) (List.mem_cons_of_mem _ hks)

/-- Validation keeps a key-preserving sub-sequence of its input: each
candidate yields at most one entry, in input order, with the candidate's own
(term, strategy) key. -/
theorem validate_candidates_keys_sublist (api : String → ApiResult)
    (original_text : String) : ∀ (l : List Candidate),
    List.Sublist ((validate_candidates api l original_text).map validated_key)
      (l.map candidate_key) := by
  intro l
  induction l with
  | nil => simp [validate_candidates]
  | cons c cs ih =>
      rw [validate_candidates, List.filterMap_cons]
      by_cases h : confidence_threshold
          < calculate_confidence c (api c.term) original_text
      · rw [if_pos h, List.map_cons, List.map_cons]
        exact List.Sublist.cons₂ _ ih
      · rw [if_neg h, List.map_cons]
        exact List.Sublist.cons _ ih

/-- C7 (amended): for every catalog behaviour and input text the validated
medication list is deduplicated — at most one entry per (term, strategy)
pair — and its keys follow candidate-generation order (single words, then
bigrams, then suffix-pattern matches), as a sub-sequence of the generated
candidate keys. -/
theorem extract_medications_dedup (api : String → ApiResult) (text : String) :
    ((extract_medications api text).map validated_pair).Nodup
      ∧ List.Sublist ((extract_medications api text).map validated_key)
          ((identify_candidates text).map candidate_key) := by
  have hsub := validate_candidates_keys_sublist api text (identify_candidates text)
  have hnodup : ((identify_candidates text).map candidate_key).Nodup :=
    (dedupAux_key_nodup _ _).1
  have hkeys : ((extract_medications api text).map validated_key).Nodup := by
    rw [extract_medications]
    exact hnodup.sublist hsub
  refine ⟨?_, hsub⟩
  have hcomp : (extract_medications api text).map validated_key
      = ((extract_medications api text).map validated_pair).map
          (fun p => p.1 ++ "_" ++ p.2) := by
    rw [List.map_map]
    rfl
  rw [hcomp] at hkeys
  exact List.Nodup.of_map _ hkeys

/-- C7 counterexample: on "lisinopril aspirin" with the basic catalog record
for every term, the validated list's positions come out [0, 1, 0, 0] —
word-strategy candidates first, then the bigram and the suffix-pattern match
— which is not ordered by position in the source text. -/
theorem extract_medications_not_position_sorted :
    (extract_medications api_basic "lisinopril aspirin").map
        (fun v => v.position) = [0, 1, 0, 0]
      ∧ ¬ List.Sorted (· ≤ ·)
          ((extract_medications api_basic "lisinopril aspirin").map
            (fun v => v.position)) := by
  have h1 : (extract_medications api_basic "lisinopril aspirin").map
      (fun v => v.position) = [0, 1, 0, 0] := by
    with_unfolding_all decide
  refine ⟨h1, ?_⟩
  rw [h1]
  decide

/-! ## Specialty selection (C5) -/

/-- `find?` returns the first element satisfying the predicate. -/
theorem find?_first {α : Type} (p : α → Bool) : ∀ (pre : List α) (e : α) (post : List α),
    (∀ x ∈ pre, p x = false) → p e = true →
    (pre ++ e :: post).find? p = some e := by
  intro pre
  induction pre with
  | nil =>
      intro e post _ he
      rw [List.nil_append]
      exact List.find?_cons_of_pos _ he
  | cons a as ih =>
      intro e post hpre he
      have ha : p a = false := hpre a (List.mem_cons_self _ _)
      rw [List.cons_append, List.find?_cons_of_neg _ (by simp [ha])]
      exact ih e post (fun x hx => hpre x (List.mem_cons_of_mem _ hx)) he

/-- C5 (amended): specialty selection uses an explicit non-general argument
as-is; otherwise the first registered specialty whose keyword list matches
the lowered text wins; otherwise the result is "general".  The patient
profile is accepted but never consulted: the selection is invariant under any
change of profile. -/
theorem selected_specialty_spec (registry : List (String × List String))
    (text specialty : String) (p1 p2 profile : Option PatientProfile) :
    (specialty ≠ "general" →
        selected_specialty registry text specialty profile = specialty)
      ∧ selected_specialty registry text specialty p1
          = selected_specialty registry text specialty p2
      ∧ (specialty = "general" →
          ((∀ e ∈ registry, entry_matches (pyLower text) e = false) →
            selected_specialty registry text specialty profile = "general")
          ∧ ∀ (pre : List (String × List String)) (e : String × List String)
              (post : List (String × List String)),
              registry = pre ++ e :: post →
              entry_matches (pyLower text) e = true →
              (∀ x ∈ pre, entry_matches (pyLower text) x = false) →
              selected_specialty registry text specialty profile = e.1) := by
  refine ⟨?_, rfl, ?_⟩
  · intro h
    rw [selected_specialty, if_neg (by simpa using h)]
  · intro h
    subst h
    constructor
    · intro hnone
      have hfind : registry.find? (fun entry => entry_matches (pyLower text) entry)
          = none := List.find?_eq_none.mpr (fun x hx => by simp [hnone x hx])
      simp [selected_specialty, detect_specialty, hfind]
    · intro pre e post hreg he hpre
      have hfind : registry.find? (fun entry => entry_matches (pyLower text) entry)
          = some e := by
        rw [hreg]
        exact find?_first _ pre e post hpre he
      by_cases hgen : e.1 = "general"
      · simp [selected_specialty, detect_specialty, hfind, hgen]
      · simp [selected_specialty, detect_specialty, hfind, hgen]

/-- C5 witness: "estoy embarazada" keyword-matches the obgyn entry, so the
auto-detection path selects "obgyn" (for any profile, here none). -/
theorem selected_specialty_spec_witness :
    entry_matches (pyLower "estoy embarazada")
        ("obgyn", obgyn_keywords ++ obgyn_spanish_keywords) = true
      ∧ selected_specialty obgyn_registry "estoy embarazada" "general" none = "obgyn" :=
  ⟨by with_unfolding_all decide,
    ((selected_specialty_spec obgyn_registry "estoy embarazada" "general"
          none none none).2.2 rfl).2
      [] ("obgyn", obgyn_keywords ++ obgyn_spanish_keywords) [] rfl
      (by with_unfolding_all decide) (by intro x hx; simp at hx)⟩

/-- C5 counterexample: on text matching no registered keyword, a patient
profile carrying a pregnancy flag does not select the pregnancy specialty —
selection returns "general", because `detect_specialty` never reads the
profile. -/
theorem selected_specialty_ignores_profile :
    selected_specialty obgyn_registry "me duele la cabeza" "general"
        (some { pregnancy_status := true, conditions := ["pregnancy"] }) = "general"
      ∧ detect_specialty obgyn_registry "me duele la cabeza"
          (some { pregnancy_status := true, conditions := ["pregnancy"] }) = "general" := by
  constructor
  · with_unfolding_all decide
  · with_unfolding_all decide

/-! ## Broadcast fan-out -/

/-- Broadcasting one message over a duplicate-free connection list delivers it
exactly once to each listed connection. -/
theorem filter_fst_map (c : String) (e : BroadcastEvent) :
    ∀ (conns : List String), c ∈ conns → conns.Nodup →
      (((conns.map (fun cx => (cx, e))).filter (fun p => p.1 == c)).map Prod.snd)
        = [e] := by
  intro conns
  induction conns with
  | nil => intro h; simp at h
  | cons a as ih =>
      intro hmem hnd
      rw [List.map_cons, List.filter_cons]
      by_cases hac : a = c
      · subst hac
        have hnotin : a ∉ as := (List.nodup_cons.mp hnd).1
        have hrest : ((as.map (fun cx => (cx, e))).filter (fun p => p.1 == a)) = [] := by
          rw [List.filter_eq_nil_iff]
          intro p hp
          obtain ⟨cx, hcx, rfl⟩ := List.mem_map.mp hp
          simp only [beq_iff_eq]
          intro hca
          exact hnotin (hca ▸ hcx)
        simp [hrest]
      · have hcas : c ∈ as := by
          rcases List.mem_cons.mp hmem with h | h
          · exact absurd h.symm hac
          · exact h
        have : ((a, e).1 == c) = false := by simpa using hac
        rw [this]
        exact ih hcas (List.nodup_cons.mp hnd).2

/-- Every connection of a duplicate-free session connection list receives
exactly the turn's broadcast sequence, in broadcast order. -/
theorem receives_sendLog (conns : List String) (c : String) (hmem : c ∈ conns)
    (hnd : conns.Nodup) :
    ∀ (events : List BroadcastEvent), receives (sendLog conns events) c = events := by
  intro events
  induction events with
  | nil => simp [sendLog, receives]
  | cons e es ih =>
      rw [sendLog, List.flatMap_cons, receives, List.filter_append, List.map_append]
      have h2 := ih
      rw [receives, sendLog] at h2
      rw [h2, filter_fst_map c e conns hmem hnd]
      rfl

/-! ## Conversation turn: extraction failure (C1) -/

/-- C1 (amended): when the medical-intelligence call raises, the turn-level
try/except aborts the turn after the transcript: the transcript broadcast is
the only broadcast of the turn — no translation (nor alert, TTS or summary)
reaches the participants. -/
theorem extraction_failure_aborts_turn
    (pmt : String → Except Unit MedicalResult) (gtr : String → Except Unit String)
    (s : ConversationSession) (speaker : SpeakerRole) (text language : String)
    (htext : text ≠ "") (hfail : pmt text = .error ()) :
    (handle_transcription pmt gtr s speaker text language).2
      = [BroadcastEvent.transcription text] := by
  rw [handle_transcription, if_pos htext]
  simp [process_conversation_turn, hfail]

/-- C1 witness: a concrete turn whose extraction raises broadcasts exactly the
transcript. -/
theorem extraction_failure_aborts_turn_witness :
    ("hola" : String) ≠ ""
      ∧ (handle_transcription (fun _ => .error ()) (fun t => .ok t)
          { doctor_language := "en", patient_language := "es", messages := [],
            safety_alerts := [] } .patient "hola" "es").2
        = [BroadcastEvent.transcription "hola"] :=
  ⟨by decide,
    extraction_failure_aborts_turn _ _ _ _ _ _ (by decide) rfl⟩

/-- C1 counterexample: in a turn whose extraction step raises, the broadcast
list contains the transcript but no translation message — contradicting the
claim that an attempted translation broadcast always reaches participants. -/
theorem extraction_failure_no_translation :
    (handle_transcription (fun _ => .error ()) (fun t => .ok t)
        { doctor_language := "en", patient_language := "es", messages := [],
          safety_alerts := [] } .patient "hola" "es").2
      = [BroadcastEvent.transcription "hola"]
    ∧ translation_contents
        (handle_transcription (fun _ => .error ()) (fun t => .ok t)
          { doctor_language := "en", patient_language := "es", messages := [],
            safety_alerts := [] } .patient "hola" "es").2 = [] := by
  constructor
  · with_unfolding_all decide
  · with_unfolding_all decide

/-! ## Conversation turn: translation fallback (C2) -/

/-- Alert broadcasts contain no translation message. -/
theorem translation_contents_alerts (m : MedicalResult) :
    translation_contents (check_safety_alerts_events m) = [] := by
  rw [check_safety_alerts_events, translation_contents, List.filterMap_map]
  exact List.filterMap_eq_nil_iff.mpr (fun a _ => rfl)

/-- TTS broadcasts contain no translation message. -/
theorem translation_contents_tts (t l : String) :
    translation_contents (generate_and_send_tts_events t l) = [] := by
  rw [generate_and_send_tts_events]
  split_ifs <;> rfl

/-- Summary broadcasts contain no translation message. -/
theorem translation_contents_summary
    (pmt : String → Except Unit MedicalResult) (s : ConversationSession) :
    translation_contents (update_conversation_summary_events pmt s) = [] := by
  rw [update_conversation_summary_events]
  split_ifs
  · cases pmt (conversation_text_of s) <;> rfl
  · rfl

/-- A successful-extraction turn broadcasts exactly one translation message,
carrying the enhanced translation for the other participant's language. -/
theorem translation_contents_turn
    (pmt : String → Except Unit MedicalResult) (gtr : String → Except Unit String)
    (s : ConversationSession) (speaker : SpeakerRole) (text source_lang : String)
    (m : MedicalResult) (hmed : pmt text = .ok m) :
    translation_contents (process_conversation_turn pmt gtr s speaker text source_lang).2
      = [translation_content text
          (translate_with_medical_context gtr text source_lang
            (target_language s speaker) m.medications).enhanced_translation
          source_lang (target_language s speaker) m.medications] := by
  rw [process_conversation_turn, hmed]
  rw [translation_contents, List.filterMap_append, List.filterMap_append,
    List.filterMap_append]
  rw [← translation_contents, ← translation_contents, ← translation_contents,
    ← translation_contents, translation_contents_alerts,
    translation_contents_summary]
  have htts : translation_contents
      (if config_auto_tts_enabled then
        generate_and_send_tts_events
          (translate_with_medical_context gtr text source_lang
            (target_language s speaker) m.medications).enhanced_translation
          (target_language s speaker)
      else []) = [] := by
    split_ifs
    · exact translation_contents_tts _ _
    · rfl
  rw [htts]
  rfl

/-- C2 (amended): if the translation collaborator raises during a turn whose
extraction succeeded, the turn still broadcasts exactly one translation
message; its `translated_text` is the non-empty `[TRANSLATION FAILED]` echo
of the (pre-processed) source text, the translation result is marked
`medical_context_applied = false`, and the message content carries no
`fallback` field at all. -/
theorem translator_failure_fallback
    (pmt : String → Except Unit MedicalResult) (gtr : String → Except Unit String)
    (s : ConversationSession) (speaker : SpeakerRole) (text source_lang : String)
    (m : MedicalResult) (htext : text ≠ "") (hmed : pmt text = .ok m)
    (hfail : gtr (preprocessed_text text source_lang) = .error ()) :
    translation_contents (handle_transcription pmt gtr s speaker text source_lang).2
        = [translation_content text
            ("[TRANSLATION FAILED] " ++ preprocessed_text text source_lang)
            source_lang (target_language s speaker) m.medications]
      ∧ "[TRANSLATION FAILED] " ++ preprocessed_text text source_lang ≠ ""
      ∧ List.lookup "fallback"
          (translation_content text
            ("[TRANSLATION FAILED] " ++ preprocessed_text text source_lang)
            source_lang (target_language s speaker) m.medications) = none
      ∧ (translate_with_medical_context gtr text source_lang
          (target_language s speaker) m.medications).medical_context_applied
          = false := by
  have htr : translate_with_medical_context gtr text source_lang
      (target_language s speaker) m.medications
      = { standard_translation :=
            "[TRANSLATION FAILED] " ++ preprocessed_text text source_lang,
          enhanced_translation :=
            "[TRANSLATION FAILED] " ++ preprocessed_text text source_lang,
          medical_context_applied := false } := by
    rw [translate_with_medical_context, hfail]
  refine ⟨?_, ?_, rfl, by rw [htr]⟩
  · rw [handle_transcription, if_pos htext]
    have h1 := translation_contents_turn pmt gtr
      { s with messages := s.messages
          ++ [{ message_type := .transcription, text := text }] }
      speaker text source_lang m hmed
    have htl : target_language
        { s with messages := s.messages
            ++ [{ message_type := PyMessageType.transcription, text := text }] } speaker
        = target_language s speaker := rfl
    rw [htl] at h1
    rw [show translation_contents
        (BroadcastEvent.transcription text ::
          (process_conversation_turn pmt gtr
            { s with messages := s.messages
                ++ [{ message_type := .transcription, text := text }] }
            speaker text source_lang).2)
        = translation_contents
            (process_conversation_turn pmt gtr
              { s with messages := s.messages
                  ++ [{ message_type := .transcription, text := text }] }
              speaker text source_lang).2 from rfl]
    rw [h1, htr]
  · intro h
    rw [String.ext_iff] at h
    simp [String.data_append] at h

/-- C2 witness: translator raising on "hello" (en→es) still yields the
broadcast translation message with the failure echo. -/
theorem translator_failure_fallback_witness :
    ("hello" : String) ≠ ""
      ∧ ((fun _ => Except.ok { medications := [], medical_notes := [] }) :
          String → Except Unit MedicalResult) "hello"
          = .ok { medications := [], medical_notes := [] }
      ∧ ((fun _ => Except.error ()) : String → Except Unit String)
          (preprocessed_text "hello" "en") = .error ()
      ∧ translation_contents
          (handle_transcription (fun _ => .ok { medications := [], medical_notes := [] })
            (fun _ => .error ())
            { doctor_language := "en", patient_language := "es", messages := [],
              safety_alerts := [] } .doctor "hello" "en").2
        = [translation_content "hello"
            ("[TRANSLATION FAILED] " ++ preprocessed_text "hello" "en")
            "en" (target_language
              { doctor_language := "en", patient_language := "es", messages := [],
                safety_alerts := [] } .doctor) []] :=
  ⟨by decide, rfl, rfl,
    (translator_failure_fallback _ _ _ _ _ _ _ (by decide) rfl rfl).1⟩

/-- C2 counterexample: with a raising translator, the concrete broadcast
translation message's content dict has exactly the six standard keys — in
particular `lookup "fallback" = none`, so it does not carry
`fallback == true` as claimed. -/
theorem translator_failure_no_fallback_key :
    translation_contents
        (handle_transcription
          (fun _ => .ok { medications := [], medical_notes := [] })
          (fun _ => .error ())
          { doctor_language := "en", patient_language := "es", messages := [],
            safety_alerts := [] } .doctor "good morning" "en").2
      = [[("original_text", PyVal.s "good morning"),
          ("translated_text", PyVal.s "[TRANSLATION FAILED] good morning"),
          ("source_language", PyVal.s "en"),
          ("target_language", PyVal.s "es"),
          ("medical_context", PyVal.meds []),
          ("confidence", PyVal.q 0.95)]]
      ∧ List.lookup "fallback"
          [(("original_text" : String), PyVal.s "good morning"),
           ("translated_text", PyVal.s "[TRANSLATION FAILED] good morning"),
           ("source_language", PyVal.s "en"),
           ("target_language", PyVal.s "es"),
           ("medical_context", PyVal.meds []),
           ("confidence", PyVal.q 0.95)] = none := by
  constructor
  · with_unfolding_all decide
  · rfl

/-! ## Conversation turn: broadcast order (C3) -/

/-- The alert phase broadcasts exactly one medical-alert message per urgent
note. -/
theorem kinds_alerts (m : MedicalResult) :
    (check_safety_alerts_events m).map BroadcastEvent.kind
      = List.replicate (urgent_notes m).length PyMessageType.medical_alert := by
  rw [check_safety_alerts_events, List.map_map]
  rw [show (BroadcastEvent.kind ∘ BroadcastEvent.medical_alert)
      = fun _ => PyMessageType.medical_alert from rfl]
  exact List.map_const' _ _

/-- The summary phase broadcasts at most one summary message. -/
theorem kinds_summary (pmt : String → Except Unit MedicalResult)
    (s : ConversationSession) :
    (update_conversation_summary_events pmt s).map BroadcastEvent.kind = []
      ∨ (update_conversation_summary_events pmt s).map BroadcastEvent.kind
          = [PyMessageType.conversation_summary] := by
  rw [update_conversation_summary_events]
  split_ifs
  · cases hres : pmt (conversation_text_of s) <;> simp [BroadcastEvent.kind]
  · simp

/-- The TTS phase broadcasts exactly one TTS message (the placeholder
synthesizer always returns audio). -/
theorem kinds_tts (t l : String) :
    (generate_and_send_tts_events t l).map BroadcastEvent.kind
      = [PyMessageType.tts_audio] := by
  rw [generate_and_send_tts_events,
    if_pos (show (tts_synthesize_speech t l).1 ≠ "" by
      rw [tts_synthesize_speech]; decide)]
  rfl

/-- C3: in a turn whose extraction produces at least one urgent safety alert
and whose translation succeeds, the broadcast order is fixed — transcript,
then every urgent alert, then the translation, then the TTS stream, then the
summary (if one is produced) — and each connection of the session receives
exactly this sequence in this order, so every connected client receives the
medical-alert broadcast before the translation broadcast. -/
theorem turn_broadcast_order
    (pmt : String → Except Unit MedicalResult) (gtr : String → Except Unit String)
    (s : ConversationSession) (speaker : SpeakerRole) (text source_lang : String)
    (m : MedicalResult) (translated : String)
    (htext : text ≠ "") (hmed : pmt text = .ok m)
    (hok : gtr (preprocessed_text text source_lang) = .ok translated)
    (halert : urgent_notes m ≠ []) :
    ∃ tail,
      ((handle_transcription pmt gtr s speaker text source_lang).2).map
          BroadcastEvent.kind
        = PyMessageType.transcription ::
            (List.replicate (urgent_notes m).length PyMessageType.medical_alert
              ++ [PyMessageType.translation, PyMessageType.tts_audio] ++ tail)
      ∧ (tail = [] ∨ tail = [PyMessageType.conversation_summary])
      ∧ 0 < (urgent_notes m).length
      ∧ ∀ (conns : List String) (c : String), c ∈ conns → conns.Nodup →
          receives
              (sendLog conns (handle_transcription pmt gtr s speaker text source_lang).2)
              c
            = (handle_transcription pmt gtr s speaker text source_lang).2 := by
  refine ⟨(update_conversation_summary_events pmt
      (handle_transcription pmt gtr s speaker text source_lang).1).map
      BroadcastEvent.kind, ?_, ?_, List.length_pos.mpr halert, ?_⟩
  · rw [handle_transcription, if_pos htext]
    simp only [process_conversation_turn, hmed]
    rw [List.map_cons, List.map_append, List.map_append, List.map_append,
      kinds_alerts, if_pos (show config_auto_tts_enabled = true from rfl),
      kinds_tts]
    simp [BroadcastEvent.kind]
  · rw [handle_transcription, if_pos htext]
    simp only [process_conversation_turn, hmed]
    exact kinds_summary pmt _
  · intro conns c hc hnd
    exact receives_sendLog conns c hc hnd _

/-- C3 witness: a concrete turn with one urgent note and an echoing
translator exhibits the fixed broadcast order. -/
theorem turn_broadcast_order_witness :
    ("hello" : String) ≠ ""
      ∧ urgent_notes
          { medications := [],
            medical_notes := [{ type := "safety_alert",
                                message := "NSAID use in pregnancy",
                                importance := "urgent" }] } ≠ []
      ∧ ∃ tail,
          ((handle_transcription
              (fun _ => .ok
                { medications := [],
                  medical_notes := [{ type := "safety_alert",
                                      message := "NSAID use in pregnancy",
                                      importance := "urgent" }] })
              (fun t => .ok t)
              { doctor_language := "en", patient_language := "es", messages := [],
                safety_alerts := [] } .doctor "hello" "en").2).map
              BroadcastEvent.kind
            = PyMessageType.transcription ::
                (List.replicate
                    (urgent_notes
                      { medications := [],
                        medical_notes := [{ type := "safety_alert",
                                            message := "NSAID use in pregnancy",
                                            importance := "urgent" }] }).length
                    PyMessageType.medical_alert
                  ++ [PyMessageType.translation, PyMessageType.tts_audio] ++ tail)
            ∧ (tail = [] ∨ tail = [PyMessageType.conversation_summary])
            ∧ 0 < (urgent_notes
                { medications := [],
                  medical_notes := [{ type := "safety_alert",
                                      message := "NSAID use in pregnancy",
                                      importance := "urgent" }] }).length
            ∧ ∀ (conns : List String) (c : String), c ∈ conns → conns.Nodup →
                receives
                    (sendLog conns
                      (handle_transcription
                        (fun _ => .ok
                          { medications := [],
                            medical_notes := [{ type := "safety_alert",
                                                message := "NSAID use in pregnancy",
                                                importance := "urgent" }] })
                        (fun t => .ok t)
                        { doctor_language := "en", patient_language := "es",
                          messages := [], safety_alerts := [] } .doctor "hello"
                        "en").2)
                    c
                  = (handle_transcription
                      (fun _ => .ok
                        { medications := [],
                          medical_notes := [{ type := "safety_alert",
                                              message := "NSAID use in pregnancy",
                                              importance := "urgent" }] })
                      (fun t => .ok t)
                      { doctor_language := "en", patient_language := "es",
                        messages := [], safety_alerts := [] } .doctor "hello"
                      "en").2 :=
  ⟨by decide, by decide,
    turn_broadcast_order _ _ _ _ _ _ _ "hello" (by decide) rfl
      (by with_unfolding_all rfl) (by decide)⟩

/-! ## Conversation turn: TTS streaming (C6) -/

/-- Alert broadcasts contain no TTS message. -/
theorem tts_payloads_alerts (m : MedicalResult) :
    tts_payloads (check_safety_alerts_events m) = [] := by
  rw [check_safety_alerts_events, tts_payloads, List.filterMap_map]
  exact List.filterMap_eq_nil_iff.mpr (fun a _ => rfl)

/-- Summary broadcasts contain no TTS message. -/
theorem tts_payloads_summary (pmt : String → Except Unit MedicalResult)
    (s : ConversationSession) :
    tts_payloads (update_conversation_summary_events pmt s) = [] := by
  rw [update_conversation_summary_events]
  split_ifs
  · cases pmt (conversation_text_of s) <;> rfl
  · rfl

/-- The leading transcript broadcast carries no TTS payload. -/
theorem tts_payloads_cons_transcription (t : String) (E : List BroadcastEvent) :
    tts_payloads (BroadcastEvent.transcription t :: E) = tts_payloads E := rfl

/-- A TTS payload in a broadcast list comes from a TTS broadcast. -/
theorem tts_payload_mem {events : List BroadcastEvent} {t l : String}
    (h : (t, l) ∈ tts_payloads events) :
    BroadcastEvent.tts_audio t l ∈ events := by
  rw [tts_payloads] at h
  obtain ⟨e, he, hfe⟩ := List.mem_filterMap.mp h
  cases e with
  | transcription _ => exact absurd hfe (by simp)
  | medical_alert _ => exact absurd hfe (by simp)
  | translation _ => exact absurd hfe (by simp)
  | conversation_summary => exact absurd hfe (by simp)
  | tts_audio a b =>
      simp only [Option.some.injEq, Prod.mk.injEq] at hfe
      rw [← hfe.1, ← hfe.2]
      exact he

/-- C6 (amended): with `auto_tts_enabled` (a constant `true` in the manager's
config) every successful-extraction turn broadcasts exactly one TTS message —
carrying the enhanced translation, whether or not it differs from the source
text — and that message is delivered to every connection of the session,
the speaker's included. -/
theorem tts_broadcast_every_turn
    (pmt : String → Except Unit MedicalResult) (gtr : String → Except Unit String)
    (s : ConversationSession) (speaker : SpeakerRole) (text source_lang : String)
    (m : MedicalResult) (htext : text ≠ "") (hmed : pmt text = .ok m) :
    tts_payloads (handle_transcription pmt gtr s speaker text source_lang).2
        = [((translate_with_medical_context gtr text source_lang
              (target_language s speaker) m.medications).enhanced_translation,
            target_language s speaker)]
      ∧ ∀ (conns : List String) (c : String), c ∈ conns → conns.Nodup →
          BroadcastEvent.tts_audio
              (translate_with_medical_context gtr text source_lang
                (target_language s speaker) m.medications).enhanced_translation
              (target_language s speaker)
            ∈ receives
                (sendLog conns (handle_transcription pmt gtr s speaker text source_lang).2)
                c := by
  have h1 : tts_payloads (handle_transcription pmt gtr s speaker text source_lang).2
      = [((translate_with_medical_context gtr text source_lang
            (target_language s speaker) m.medications).enhanced_translation,
          target_language s speaker)] := by
    rw [handle_transcription, if_pos htext]
    simp only [process_conversation_turn, hmed]
    rw [show target_language
        { s with messages := s.messages
            ++ [{ message_type := PyMessageType.transcription, text := text }] } speaker
        = target_language s speaker from rfl]
    rw [tts_payloads_cons_transcription]
    rw [tts_payloads, List.filterMap_append, List.filterMap_append,
      List.filterMap_append, ← tts_payloads, ← tts_payloads, ← tts_payloads,
      ← tts_payloads, tts_payloads_alerts, tts_payloads_summary]
    rw [if_pos (show config_auto_tts_enabled = true from rfl)]
    rw [generate_and_send_tts_events,
      if_pos (show (tts_synthesize_speech
          (translate_with_medical_context gtr text source_lang
            (target_language s speaker) m.medications).enhanced_translation
          (target_language s speaker)).1 ≠ "" by
        rw [tts_synthesize_speech]; decide)]
    rfl
  refine ⟨h1, ?_⟩
  intro conns c hc hnd
  rw [receives_sendLog conns c hc hnd]
  exact tts_payload_mem (h1 ▸ List.mem_cons_self _ _)

/-- C6 witness: a concrete successful turn broadcasts its TTS message, and
both session connections — the speaking doctor's included — receive it. -/
theorem tts_broadcast_every_turn_witness :
    ("hi" : String) ≠ ""
      ∧ tts_payloads
          (handle_transcription
            (fun _ => .ok { medications := [], medical_notes := [] })
            (fun t => .ok t)
            { doctor_language := "en", patient_language := "es", messages := [],
              safety_alerts := [] } .doctor "hi" "en").2
        = [((translate_with_medical_context (fun t => .ok t) "hi" "en"
              (target_language
                { doctor_language := "en", patient_language := "es", messages := [],
                  safety_alerts := [] } .doctor) []).enhanced_translation,
            target_language
              { doctor_language := "en", patient_language := "es", messages := [],
                safety_alerts := [] } .doctor)] :=
  ⟨by decide,
    (tts_broadcast_every_turn
      (fun _ => .ok { medications := [], medical_notes := [] }) (fun t => .ok t)
      { doctor_language := "en", patient_language := "es", messages := [],
        safety_alerts := [] } .doctor "hi" "en"
      { medications := [], medical_notes := [] } (by decide) rfl).1⟩

/-- C6 counterexample: with both participants on "en" and an echoing
translator, the translated text equals the source text, yet a TTS message is
still broadcast — and the speaker's own connection receives it, since the
manager broadcasts TTS to the whole session. -/
theorem tts_streamed_despite_equal_text :
    (translate_with_medical_context (fun t => .ok t) "hello world" "en" "en"
        []).enhanced_translation = "hello world"
      ∧ tts_payloads
          (handle_transcription
            (fun _ => .ok { medications := [], medical_notes := [] })
            (fun t => .ok t)
            { doctor_language := "en", patient_language := "en", messages := [],
              safety_alerts := [] } .doctor "hello world" "en").2
        = [("hello world", "en")]
      ∧ ("session1_doctor", BroadcastEvent.tts_audio "hello world" "en")
          ∈ sendLog ["session1_doctor", "session1_patient"]
              (handle_transcription
                (fun _ => .ok { medications := [], medical_notes := [] })
                (fun t => .ok t)
                { doctor_language := "en", patient_language := "en", messages := [],
                  safety_alerts := [] } .doctor "hello world" "en").2 := by
  refine ⟨?_, ?_, ?_⟩
  · with_unfolding_all decide
  · with_unfolding_all decide
  · with_unfolding_all decide
